import Mathlib

/-!
Verification development for the OGC analytics dashboard (`src/main.py`).

The dashboard loads a time-entry CSV, enriches it with fee/revenue bands and
attorney target hours, filters it by user selections, and computes grouped
aggregates (utilization, average rate, client lifetime value).  This file
shallowly embeds those pure data-transformation parts:

* money and hours are modelled as exact rationals (`ℚ`);
* pandas `NaN`-able scalars are `Option` values (`none` models `NaN`/missing);
* float division and means that can produce `inf`/`NaN` are modelled by the
  explicit carrier `PFloat`;
* calendar dates use the standard civil-calendar day-number conversion, so
  `datetime` subtraction (`.dt.days`) is integer subtraction of day numbers;
* a pandas DataFrame is a `List` of rows; boolean-mask filtering is
  `List.filter`; `groupby` keys are the deduplicated non-null key values.
-/

namespace OGCDash

/-- A calendar date (proleptic Gregorian), as handled by `pd.to_datetime`. -/
structure Date where
  year : Int
  month : Int
  day : Int
deriving DecidableEq, Repr

/-- Day number of a civil date (days since 1970-01-01, standard civil-calendar
conversion).  `pandas` timestamp subtraction `.dt.days` is subtraction of these
day numbers, and comparison of dates is comparison of day numbers. -/
def Date.toDays (d : Date) : Int :=
  let y : Int := if d.month ≤ 2 then d.year - 1 else d.year
  let era : Int := (if 0 ≤ y then y else y - 399) / 400
  let yoe : Int := y - era * 400
  let mp : Int := (d.month + 9) % 12
  let doy : Int := (153 * mp + 2) / 5 + d.day - 1
  let doe : Int := yoe * 365 + yoe / 4 - yoe / 100 + doy
  era * 146097 + doe - 719468

/-- IEEE-style float outcomes that pandas can hand to the presentation layer:
a finite value, positive or negative infinity, or NaN. -/
inductive PFloat where
  | val : ℚ → PFloat
  | inf : PFloat
  | negInf : PFloat
  | nan : PFloat
deriving DecidableEq, Repr

/-- Float division as numpy/pandas performs it on column arithmetic:
division by zero yields `inf`/`-inf`/`NaN` depending on the numerator's sign,
never an exception. -/
def pdiv (a b : ℚ) : PFloat :=
  if b = 0 then
    if 0 < a then PFloat.inf else if a < 0 then PFloat.negInf else PFloat.nan
  else PFloat.val (a / b)

/-- `Series.mean` over the non-null values of a column: NaN when there are no
values to average (pandas skips NaN entries and returns NaN for an empty or
all-NaN column). -/
def pmean (l : List ℚ) : PFloat :=
  match l with
  | [] => PFloat.nan
  | _ => PFloat.val (l.sum / (l.length : ℚ))

/-- One row of the time-entry table (`six_months` in `src/main.py`), carrying
both the raw CSV columns and the columns the loader adds (`Fee Band`,
`Revenue Band`, `Target Hours`).  `none` models a pandas `NaN`/`NaT`. -/
structure Row where
  serviceDate : Option Date
  invoiceDate : Option Date
  attorney : Option String
  clientName : Option String
  matterName : Option String
  pg : Option String
  feeType : String
  hours : ℚ
  amount : ℚ
  rate : Option ℚ
  targetHours : Option ℚ
  transactionType : Option String
  activityType : Option String
  feeBand : Option String
  revenueBand : Option String
deriving DecidableEq, Repr

/-- A template row: concrete examples below override the fields they need. -/
def baseRow : Row where
  serviceDate := none
  invoiceDate := none
  attorney := none
  clientName := none
  matterName := none
  pg := none
  feeType := "Time"
  hours := 0
  amount := 0
  rate := none
  targetHours := none
  transactionType := none
  activityType := none
  feeBand := none
  revenueBand := none

/-! ## Classifier functions (`get_company_revenue_band`, `get_fee_band`) -/

/-- Whether `small` occurs at the head of `big` (character-wise). -/
def leadsWith : List Char → List Char → Bool
  | [], _ => true
  | _ :: _, [] => false
  | a :: as, b :: bs => a == b && leadsWith as bs

/-- Whether `small` occurs contiguously anywhere in `big`. -/
def hasSub (small : List Char) : List Char → Bool
  | [] => small.isEmpty
  | b :: bs => leadsWith small (b :: bs) || hasSub small bs

/-- Python's substring test `small in big`. -/
def strContains (big small : String) : Bool :=
  hasSub small.data big.data

/-- Python's `str.lower` (ASCII case folding, as used on the band phrases). -/
def lowerStr (s : String) : String :=
  String.mk (s.data.map Char.toLower)

/-- `get_company_revenue_band` (src/main.py lines 32-61): map free-text company
revenue to a standardized band by case-insensitive substring matching; null or
empty text, or unmatched text, maps to "Unknown". -/
def get_company_revenue_band (revenue_text : Option String) : String :=
  match revenue_text with
  | none => "Unknown"
  | some s =>
    if s = "" then "Unknown"
    else
      let text := lowerStr s
      if strContains text "< $10m" || strContains text "under $10m" then "< $10M"
      else if strContains text "$10m - $30m" then "$10M - $30M"
      else if strContains text "$30m - $100m" then "$30M - $100M"
      else if strContains text "$100m - $500m" then "$100M - $500M"
      else if strContains text "$500m - $1b" then "$500M - $1B"
      else if strContains text "$1b - $3b" then "$1B - $3B"
      else if strContains text "$3b - $10b" then "$3B - $10B"
      else if strContains text "> $10 billion" || strContains text "> $10b" then "> $10B"
      else "Unknown"

/-- `get_fee_band` (src/main.py lines 64-92): null or zero six-month revenue
maps to "Under $50K"; otherwise the revenue is doubled (annualized) and mapped
through the inline threshold ladder. -/
def get_fee_band (six_month_revenue : Option ℚ) : String :=
  match six_month_revenue with
  | none => "Under $50K"
  | some v =>
    if v = 0 then "Under $50K"
    else
      let annual_fees := v * 2
      if annual_fees ≤ 50000 then "Under $50K"
      else if annual_fees ≤ 100000 then "$50K-$100K"
      else if annual_fees ≤ 250000 then "$100K-$250K"
      else if annual_fees ≤ 500000 then "$250K-$500K"
      else if annual_fees ≤ 1000000 then "$500K-$1M"
      else if annual_fees ≤ 2000000 then "$1M-$2M"
      else if annual_fees ≤ 5000000 then "$2M-$5M"
      else if annual_fees ≤ 10000000 then "$5M-$10M"
      else "Over $10M"

/-- The fixed threshold ladder of `get_fee_band`, as a standalone function of
an annualized amount (used to state that `get_fee_band` doubles its input
before consulting the ladder). -/
def feeBandLadder (annual_fees : ℚ) : String :=
  if annual_fees ≤ 50000 then "Under $50K"
  else if annual_fees ≤ 100000 then "$50K-$100K"
  else if annual_fees ≤ 250000 then "$100K-$250K"
  else if annual_fees ≤ 500000 then "$250K-$500K"
  else if annual_fees ≤ 1000000 then "$500K-$1M"
  else if annual_fees ≤ 2000000 then "$1M-$2M"
  else if annual_fees ≤ 5000000 then "$2M-$5M"
  else if annual_fees ≤ 10000000 then "$5M-$10M"
  else "Over $10M"

/-- The fixed label set of `get_company_revenue_band`. -/
def companyBandLabels : List String :=
  ["Unknown", "< $10M", "$10M - $30M", "$30M - $100M", "$100M - $500M",
   "$500M - $1B", "$1B - $3B", "$3B - $10B", "> $10B"]

/-- The fixed label set of `get_fee_band`. -/
def feeBandLabels : List String :=
  ["Under $50K", "$50K-$100K", "$100K-$250K", "$250K-$500K",
   "$500K-$1M", "$1M-$2M", "$2M-$5M", "$5M-$10M", "Over $10M"]

/-! ## Record loader (`load_data`, src/main.py lines 95-183)

The time-entry frame together with which optional columns it has.  Column
presence is a property of the whole frame in pandas, so it is carried as flags
beside the rows. -/

/-- The parsed primary time-entry frame plus its column-presence flags. -/
structure LoadTable where
  rows : List Row
  hasTransactionType : Bool
  hasActivityType : Bool
deriving DecidableEq, Repr

/-- The sum of `Amount` over the rows of one client
(`six_months.groupby('Client Name')['Amount'].sum()`, line 114). -/
def clientTotalAmount (rows : List Row) (c : String) : ℚ :=
  ((rows.filter (fun r => r.clientName == some c)).map (fun r => r.amount)).sum

/-- The fee band assigned to a client from its total amount
(`client_revenue['Fee Band']`, line 115). -/
def clientFeeBandOf (rows : List Row) (c : String) : String :=
  get_fee_band (some (clientTotalAmount rows c))

/-- The expense-filter predicate of lines 140-144: when a `Transaction Type`
column exists, keep rows whose value is not `'Expense'` (a pandas `!=` keeps
NaN); otherwise, when an `Activity Type` column exists, the same test on that
column; otherwise keep everything. -/
def expenseKeep (t : LoadTable) (r : Row) : Bool :=
  if t.hasTransactionType then r.transactionType != some "Expense"
  else if t.hasActivityType then r.activityType != some "Expense"
  else true

/-- Lines 140-144: drop expense rows from the time-entry frame. -/
def dropExpenses (t : LoadTable) : List Row :=
  t.rows.filter (expenseKeep t)

/-- The left-merge of `Fee Band` onto a row by client name (lines 146-151).
The per-client bands were computed from the PRE-filter frame `t.rows`
(lines 114-115 run before the expense filter), so every remaining non-null
client matches; a null client has no match and keeps a null band. -/
def mergeFeeBand (t : LoadTable) (r : Row) : Row :=
  { r with feeBand := r.clientName.map (clientFeeBandOf t.rows) }

/-- The fee-band portion of the loader's processing of the time-entry frame,
in source order: the per-client amount totals and bands are taken over the
whole frame (lines 114-115), the expense rows are then dropped (lines
140-144), and the bands are then merged onto the surviving rows (lines
146-151).  (The revenue-band and target-hours merges add independent columns
the claims below do not touch; rows already carry those fields.) -/
def loadProcess (t : LoadTable) : List Row :=
  (dropExpenses t).map (mergeFeeBand t)

/-- A raw auxiliary CSV table (attorney roster, attorney-client map,
utilization export, pivot export), kept abstract as lines of fields. -/
abbrev AuxTable : Type := List (List String)

/-- The five sources `load_data` reads; `none` models a read or parse failure
(a raised exception) for that source. -/
structure LoadSources where
  sixMonths : Option LoadTable
  attorneys : Option AuxTable
  attorneyClients : Option AuxTable
  utilization : Option AuxTable
  pivotSource : Option AuxTable

/-- `load_data` (lines 95-183): all five `pd.read_csv` calls and the
processing sit inside a single `try`; if ANY of them raises, the `except`
branch returns `(None, None, None, None, None)` (modelled as `none`).  Only
when all five sources load does it return the processed time-entry frame
together with the four auxiliary tables. -/
def load_data (s : LoadSources) :
    Option (List Row × AuxTable × AuxTable × AuxTable × AuxTable) :=
  match s.sixMonths, s.attorneys, s.attorneyClients, s.utilization, s.pivotSource with
  | some t, some a, some b, some c, some d => some (loadProcess t, a, b, c, d)
  | _, _, _, _, _ => none

/-! ## Filter engine (src/main.py lines 296-343) -/

/-- The sidebar filter selection.  The date range is the tuple returned by the
date widget: the filter applies only when it has exactly two entries (line
311); an empty list models `None` or an incomplete selection. -/
structure Selection where
  dateRange : List Date
  feeTypes : List String
  revenueBands : List String
  feeBands : List String
  attorneys : List String
  practices : List String
  clients : List String
  matters : List String

/-- The row test of lines 312-315: keep a row when its service date lies
between the two bounds, inclusive on both ends.  A missing (`NaT`) service
date fails both pandas comparisons and is dropped. -/
def datePred (lo hi : Date) (r : Row) : Bool :=
  match r.serviceDate with
  | some d => decide (lo.toDays ≤ d.toDays) && decide (d.toDays ≤ hi.toDays)
  | none => false

/-- Lines 311-315: apply the date filter only when the selection has exactly
two entries; otherwise leave the frame unchanged. -/
def dateFilter (dr : List Date) (rows : List Row) : List Row :=
  match dr with
  | [lo, hi] => rows.filter (datePred lo hi)
  | _ => rows

/-- Lines 317-325: the fee-type filter.  An empty selection, a selection
containing `'All'`, or a selection containing both `'Time'` and `'Fixed Fee'`
leaves the frame unchanged; otherwise rows are kept by equality on the
`Fee Type` column (whose data values are `'Time'`/`'Fixed'`). -/
def feeTypeFilter (sel : List String) (rows : List Row) : List Row :=
  if sel.isEmpty then rows
  else if sel.contains "All" then rows
  else if sel.contains "Time" && sel.contains "Fixed Fee" then rows
  else if sel.contains "Time" then rows.filter (fun r => r.feeType == "Time")
  else if sel.contains "Fixed Fee" then rows.filter (fun r => r.feeType == "Fixed")
  else rows

/-- A set-membership filter (`df[df[col].isin(sel)]`) guarded by
`if sel:` — an empty selection leaves the frame unchanged, and a null cell is
never `isin` a selection list. -/
def isinFilter (sel : List String) (get : Row → Option String)
    (rows : List Row) : List Row :=
  if sel.isEmpty then rows
  else rows.filter (fun r =>
    match get r with
    | some v => sel.contains v
    | none => false)

/-- Lines 296-343: the sequential application of all eight dimension filters
to the loaded frame, in the program's order (date range, fee type, revenue
band, fee band, attorney, practice group, client, matter). -/
def filtered_df (s : Selection) (rows : List Row) : List Row :=
  isinFilter s.matters (fun r => r.matterName)
    (isinFilter s.clients (fun r => r.clientName)
      (isinFilter s.practices (fun r => r.pg)
        (isinFilter s.attorneys (fun r => r.attorney)
          (isinFilter s.feeBands (fun r => r.feeBand)
            (isinFilter s.revenueBands (fun r => r.revenueBand)
              (feeTypeFilter s.feeTypes
                (dateFilter s.dateRange rows)))))))

/-- The per-row predicate equivalent to one `isin` filter step: vacuously true
when the selection is empty. -/
def dimPred (sel : List String) (get : Row → Option String) (r : Row) : Bool :=
  sel.isEmpty ||
    (match get r with
     | some v => sel.contains v
     | none => false)

/-- The per-row predicate equivalent to the fee-type filter step. -/
def feeTypePred (sel : List String) (r : Row) : Bool :=
  if sel.isEmpty then true
  else if sel.contains "All" then true
  else if sel.contains "Time" && sel.contains "Fixed Fee" then true
  else if sel.contains "Time" then r.feeType == "Time"
  else if sel.contains "Fixed Fee" then r.feeType == "Fixed"
  else true

/-- The per-row predicate equivalent to the date filter step: vacuously true
when the selection is incomplete. -/
def dateRangePred (dr : List Date) (r : Row) : Bool :=
  match dr with
  | [lo, hi] => datePred lo hi r
  | _ => true

/-- The eight dimension predicates of a selection, in the program's order. -/
def selPreds (s : Selection) : List (Row → Bool) :=
  [dateRangePred s.dateRange, feeTypePred s.feeTypes,
   dimPred s.revenueBands (fun r => r.revenueBand),
   dimPred s.feeBands (fun r => r.feeBand),
   dimPred s.attorneys (fun r => r.attorney),
   dimPred s.practices (fun r => r.pg),
   dimPred s.clients (fun r => r.clientName),
   dimPred s.matters (fun r => r.matterName)]

/-- Apply a list of row predicates as successive boolean-mask filters. -/
def applyPreds (ps : List (Row → Bool)) (rows : List Row) : List Row :=
  ps.foldl (fun acc p => acc.filter p) rows

/-! ## Aggregation pipeline -/

/-- The group keys of `filtered_df.groupby('Associated Attorney')`: the
distinct non-null attorney names (pandas drops NaN keys). -/
def attorneyKeys (rows : List Row) : List String :=
  (rows.filterMap (fun r => r.attorney)).dedup

/-- Per-attorney `'Hours': 'sum'`. -/
def attorneyHours (rows : List Row) (a : String) : ℚ :=
  ((rows.filter (fun r => r.attorney == some a)).map (fun r => r.hours)).sum

/-- Per-attorney `'Amount': 'sum'`. -/
def attorneyAmount (rows : List Row) (a : String) : ℚ :=
  ((rows.filter (fun r => r.attorney == some a)).map (fun r => r.amount)).sum

/-- Per-attorney `'Target Hours': 'first'` (pandas `groupby.first` takes the
first non-null value of the group, `None` when all are null). -/
def attorneyFirstTarget (rows : List Row) (a : String) : Option ℚ :=
  ((rows.filter (fun r => r.attorney == some a)).filterMap
    (fun r => r.targetHours)).head?

/-- Per-attorney `'PG': 'first'` (first non-null practice group). -/
def attorneyFirstPG (rows : List Row) (a : String) : Option String :=
  ((rows.filter (fun r => r.attorney == some a)).filterMap
    (fun r => r.pg)).head?

/-- Per-attorney `'Client Name': 'nunique'` (distinct non-null values). -/
def attorneyClientCount (rows : List Row) (a : String) : Nat :=
  ((rows.filter (fun r => r.attorney == some a)).filterMap
    (fun r => r.clientName)).dedup.length

/-- Per-attorney `'Matter Name': 'nunique'`. -/
def attorneyMatterCount (rows : List Row) (a : String) : Nat :=
  ((rows.filter (fun r => r.attorney == some a)).filterMap
    (fun r => r.matterName)).dedup.length

/-- The utilization lambda of lines 455-458 and 880-885:
`Hours / (Target Hours * 6) * 100` when the target is non-null and positive,
else `0`.  The month factor is the hard-coded constant `6`. -/
def utilizationRate (hours : ℚ) (target : Option ℚ) : ℚ :=
  match target with
  | some t => if 0 < t then hours / (t * 6) * 100 else 0
  | none => 0

/-- One row of the aggregated frame of lines 446-449 (`attorney_util` before
its filter): attorney, summed hours, first target. -/
structure UtilAgg where
  attorney : String
  hours : ℚ
  target : Option ℚ
deriving DecidableEq, Repr

/-- One row of the displayed utilization-overview table. -/
structure UtilRow where
  attorney : String
  hours : ℚ
  target : Option ℚ
  utilization : ℚ
deriving DecidableEq, Repr

/-- Lines 446-449: group the filtered frame by attorney and aggregate. -/
def attorney_util_agg (rows : List Row) : List UtilAgg :=
  (attorneyKeys rows).map (fun a =>
    ⟨a, attorneyHours rows a, attorneyFirstTarget rows a⟩)

/-- `attorney_util` (lines 446-461): aggregate by attorney, keep only rows
with `Hours > 1` and a non-null target (line 452), then compute the
utilization-rate column.  (Line 461 then sorts for display, which only
permutes rows.) -/
def attorney_util (rows : List Row) : List UtilRow :=
  ((attorney_util_agg rows).filter
      (fun u => decide (1 < u.hours) && u.target.isSome)).map
    (fun u => ⟨u.attorney, u.hours, u.target, utilizationRate u.hours u.target⟩)

/-- One row of the aggregated frame of lines 866-873 (`attorney_metrics`
before its filter). -/
structure AttAgg where
  attorney : String
  hours : ℚ
  amount : ℚ
  clientCount : Nat
  matterCount : Nat
  target : Option ℚ
  pg : Option String
deriving DecidableEq, Repr

/-- One row of the attorney-analysis metrics table. -/
structure AttRow where
  attorney : String
  hours : ℚ
  amount : ℚ
  clientCount : Nat
  matterCount : Nat
  target : Option ℚ
  pg : Option String
  utilization : ℚ
  avgHourlyRate : ℚ
deriving DecidableEq, Repr

/-- Lines 866-873: group the filtered frame by attorney and aggregate. -/
def attorney_metrics_agg (rows : List Row) : List AttAgg :=
  (attorneyKeys rows).map (fun a =>
    ⟨a, attorneyHours rows a, attorneyAmount rows a, attorneyClientCount rows a,
     attorneyMatterCount rows a, attorneyFirstTarget rows a, attorneyFirstPG rows a⟩)

/-- `attorney_metrics` (lines 866-889): aggregate by attorney, keep only rows
with `Hours > 1` (line 876), then compute the utilization rate (same lambda,
null target giving 0) and the average hourly rate `Amount / Hours`
(well-defined on the kept rows since their hours exceed 1). -/
def attorney_metrics (rows : List Row) : List AttRow :=
  ((attorney_metrics_agg rows).filter (fun u => decide (1 < u.hours))).map
    (fun u => ⟨u.attorney, u.hours, u.amount, u.clientCount, u.matterCount,
               u.target, u.pg, utilizationRate u.hours u.target,
               u.amount / u.hours⟩)

/-- The group keys of `filtered_df.groupby('PG')`. -/
def practiceKeys (rows : List Row) : List String :=
  (rows.filterMap (fun r => r.pg)).dedup

/-- Per-practice-group `'Hours': 'sum'` (lines 1095-1101). -/
def practiceHours (rows : List Row) (g : String) : ℚ :=
  ((rows.filter (fun r => r.pg == some g)).map (fun r => r.hours)).sum

/-- Per-practice-group `'Amount': 'sum'` (lines 1095-1101). -/
def practiceAmount (rows : List Row) (g : String) : ℚ :=
  ((rows.filter (fun r => r.pg == some g)).map (fun r => r.amount)).sum

/-- Line 1104: `practice_metrics['Avg Rate'] = Amount / Hours`, an unguarded
pandas float division. -/
def practice_avg_rate (rows : List Row) (g : String) : PFloat :=
  pdiv (practiceAmount rows g) (practiceHours rows g)

/-- Line 385: `avg_rate = filtered_df['Rate'].mean()`, the mean of the
non-null rates (NaN on an empty or all-null column). -/
def overview_avg_rate (rows : List Row) : PFloat :=
  pmean (rows.filterMap (fun r => r.rate))

/-! ## Client lifetime value (lines 699-706 and 756-772)

These operate on the per-client columns of `client_metrics` — total fees,
first/last service date — and on the most recent service date of the filtered
frame (line 756). -/

/-- Lines 700-702: `Retention Days = (Last Service - First Service).dt.days`. -/
def retentionDays (first last : Date) : Int :=
  last.toDays - first.toDays

/-- Lines 759-760: `Monthly Fees = Total Fees / (Retention Days / 30).clip(lower=1)`. -/
def monthlyFees (totalFees : ℚ) (rd : Int) : ℚ :=
  totalFees / max ((rd : ℚ) / 30) 1

/-- Lines 764-768: churn probability 0.8 when the client's last service is
more than 90 days before the most recent service date of the filtered frame,
else 0.2. -/
def churnProbability (recent last : Date) : ℚ :=
  if 90 < recent.toDays - last.toDays then 8 / 10 else 2 / 10

/-- Lines 771-772: `LTV = Avg Monthly Fees / Churn Probability * 12`. -/
def clientLTV (monthly churn : ℚ) : ℚ :=
  monthly / churn * 12

/-- The whole per-client LTV computation as a function of the client's total
fees, first and last service dates, and the frame's most recent service date. -/
def ltvPipeline (totalFees : ℚ) (first last recent : Date) : ℚ :=
  clientLTV (monthlyFees totalFees (retentionDays first last))
    (churnProbability recent last)

/-- The LTV formula as the specification words it: monthly revenue is total
revenue over `max(retention period in months, 1)` with a month as 30 days,
churn is a step function on the days since last activity, and LTV is monthly
revenue over churn times 12.  Stated separately from the code-derived
`ltvPipeline` so the two can be compared. -/
def ltvSpecFormula (totalRevenue : ℚ) (retDays gapDays : Int) : ℚ :=
  let monthlyRevenue := totalRevenue / max ((retDays : ℚ) / 30) 1
  let churn : ℚ := if 90 < gapDays then 8 / 10 else 2 / 10
  monthlyRevenue / churn * 12

/-! ## Concrete example data used by the theorems below -/

/-- A January-2024 billable entry of attorney A. Smith: 10 hours, 2000
dollars, monthly target 10 hours (the worked example of the specification). -/
def exC1Row1 : Row := { baseRow with
  attorney := some "A. Smith", clientName := some "Acme",
  matterName := some "M1", pg := some "Corp", hours := 10, amount := 2000,
  activityType := some "Billable", targetHours := some 10,
  serviceDate := some ⟨2024, 1, 5⟩ }

/-- A second January-2024 billable entry of A. Smith: 20 hours, 6000 dollars. -/
def exC1Row2 : Row := { baseRow with
  attorney := some "A. Smith", clientName := some "Acme",
  matterName := some "M1", pg := some "Corp", hours := 20, amount := 6000,
  activityType := some "Billable", targetHours := some 10,
  serviceDate := some ⟨2024, 1, 20⟩ }

/-- A filtered frame spanning exactly one calendar month. -/
def exC1Rows : List Row := [exC1Row1, exC1Row2]

/-- A practice group whose only entry has zero hours and a positive amount. -/
def exC4Row : Row := { baseRow with
  pg := some "LIT", hours := 0, amount := 100 }

/-- A non-expense time entry of client Acme worth 30000 dollars. -/
def exC9Keep : Row := { baseRow with
  clientName := some "Acme", amount := 30000, transactionType := some "Fee" }

/-- An expense row of client Acme, also worth 30000 dollars. -/
def exC9Expense : Row := { baseRow with
  clientName := some "Acme", amount := 30000,
  transactionType := some "Expense" }

/-- A loaded frame holding both Acme rows, with a Transaction Type column. -/
def exC9Table : LoadTable := ⟨[exC9Keep, exC9Expense], true, false⟩

/-- Sources where the primary frame and three auxiliary tables read fine but
the utilization export fails to parse. -/
def exC5Sources : LoadSources :=
  ⟨some ⟨[], true, false⟩, some [], some [], none, some []⟩

/-- A selection activating the fee-type and attorney dimensions. -/
def exC3Sel : Selection :=
  ⟨[], ["Time"], [], [], ["A. Smith"], [], [], []⟩

/-- A one-row frame matching `exC3Sel`. -/
def exC3Rows : List Row :=
  [{ baseRow with attorney := some "A. Smith", feeType := "Time" }]

/-- A February-2024 row whose invoice date is March 1. -/
def exC8RowA : Row := { baseRow with
  serviceDate := some ⟨2024, 2, 10⟩, invoiceDate := some ⟨2024, 3, 1⟩ }

/-- The same service date as `exC8RowA` but an invoice date two weeks later. -/
def exC8RowB : Row := { baseRow with
  serviceDate := some ⟨2024, 2, 10⟩, invoiceDate := some ⟨2024, 3, 15⟩ }

/-! ## Filter-engine algebra -/

/-- Filtering by a vacuously true predicate keeps every row. -/
lemma filter_fun_true (rows : List Row) : rows.filter (fun _ => true) = rows := by
  simp

/-- One `isin` filter step is boolean-mask filtering by its row predicate. -/
lemma isinFilter_eq (sel : List String) (get : Row → Option String) (rows : List Row) :
    isinFilter sel get rows = rows.filter (dimPred sel get) := by
  unfold isinFilter dimPred
  cases h : sel.isEmpty
  · simp [h]
  · simp [h]

/-- The fee-type filter step is boolean-mask filtering by its row predicate. -/
lemma feeTypeFilter_eq (sel : List String) (rows : List Row) :
    feeTypeFilter sel rows = rows.filter (feeTypePred sel) := by
  unfold feeTypeFilter
  split_ifs with h1 h2 h3 h4 h5
  · exact (filter_fun_true rows).symm.trans (List.filter_congr (fun r _ => by
      unfold feeTypePred; rw [if_pos h1]))
  · exact (filter_fun_true rows).symm.trans (List.filter_congr (fun r _ => by
      unfold feeTypePred; rw [if_neg h1, if_pos h2]))
  · exact (filter_fun_true rows).symm.trans (List.filter_congr (fun r _ => by
      unfold feeTypePred; rw [if_neg h1, if_neg h2, if_pos h3]))
  · exact List.filter_congr (fun r _ => by
      unfold feeTypePred; rw [if_neg h1, if_neg h2, if_neg h3, if_pos h4])
  · exact List.filter_congr (fun r _ => by
      unfold feeTypePred; rw [if_neg h1, if_neg h2, if_neg h3, if_neg h4, if_pos h5])
  · exact (filter_fun_true rows).symm.trans (List.filter_congr (fun r _ => by
      unfold feeTypePred; rw [if_neg h1, if_neg h2, if_neg h3, if_neg h4, if_neg h5]))

/-- The date filter step is boolean-mask filtering by its row predicate. -/
lemma dateFilter_eq (dr : List Date) (rows : List Row) :
    dateFilter dr rows = rows.filter (dateRangePred dr) := by
  match dr with
  | [] => exact (filter_fun_true rows).symm.trans (List.filter_congr (fun r _ => rfl))
  | [d] => exact (filter_fun_true rows).symm.trans (List.filter_congr (fun r _ => rfl))
  | [lo, hi] => rfl
  | a :: b :: c :: tl =>
    exact (filter_fun_true rows).symm.trans (List.filter_congr (fun r _ => rfl))

/-- Successive mask filters amount to one filter by the conjunction of all
the predicates. -/
lemma applyPreds_eq (ps : List (Row → Bool)) (rows : List Row) :
    applyPreds ps rows = rows.filter (fun r => ps.all (fun p => p r)) := by
  induction ps generalizing rows with
  | nil => simp [applyPreds]
  | cons p ps ih =>
    have h : applyPreds (p :: ps) rows = applyPreds ps (rows.filter p) := rfl
    rw [h, ih, List.filter_filter]
    refine List.filter_congr (fun r _ => ?_)
    simp [List.all_cons, Bool.and_comm]

/-- A boolean conjunction over a list is invariant under permutation. -/
lemma all_of_perm {α : Type} {l₁ l₂ : List α} (h : l₁.Perm l₂) (f : α → Bool) :
    l₁.all f = l₂.all f := by
  induction h with
  | nil => rfl
  | cons x _ ih => simp [List.all_cons, ih]
  | swap x y l => cases hx : f x <;> cases hy : f y <;> simp [List.all_cons, hx, hy]
  | trans _ _ ih1 ih2 => rw [ih1, ih2]

/-- The filter pipeline equals the fold of its eight dimension predicates in
source order. -/
lemma filtered_df_eq (s : Selection) (rows : List Row) :
    filtered_df s rows = applyPreds (selPreds s) rows := by
  simp [filtered_df, applyPreds, selPreds, isinFilter_eq, feeTypeFilter_eq,
    dateFilter_eq, List.foldl]

/-! ## Claims -/

/-- C1: the claim says the utilization divisor is the monthly target times the
number of months N spanned by the filtered window.  The code instead divides
by the hard-coded constant `target * 6` (lines 456 and 881) no matter what
window is selected.  On the worked example of the specification — attorney
A. Smith with 10+20 billable hours, target 10 hours/month, over a one-month
window — both attorney tables report utilization 50, not the period-aware
30 / (10 * 1) * 100 = 300 the claim requires. -/
theorem claim_C1 :
    attorney_util exC1Rows = [⟨"A. Smith", 30, some 10, 50⟩] ∧
    attorney_metrics exC1Rows =
      [⟨"A. Smith", 30, 8000, 1, 1, some 10, some "Corp", 50, 8000 / 30⟩] ∧
    utilizationRate 30 (some 10) = 50 ∧ (50 : ℚ) ≠ 30 / (10 * 1) * 100 := by
  refine ⟨?_, ?_, ?_, by norm_num⟩
  · norm_num [attorney_util, attorney_util_agg, attorneyKeys, attorneyHours,
      attorneyFirstTarget, utilizationRate, exC1Rows, exC1Row1, exC1Row2, baseRow,
      List.filter_cons, List.filterMap, List.dedup]
  · norm_num [attorney_metrics, attorney_metrics_agg, attorneyKeys, attorneyHours,
      attorneyAmount, attorneyClientCount, attorneyMatterCount, attorneyFirstTarget,
      attorneyFirstPG, utilizationRate, exC1Rows, exC1Row1, exC1Row2, baseRow,
      List.filter_cons, List.filterMap, List.dedup]
  · norm_num [utilizationRate]

/-- C2 counterexample: in the worked example the claim asserts retention of 90
days and an LTV of 180000 dollars, but 2024-01-01 to 2024-04-01 is 91 calendar
days (2024 is a leap year), so the code computes LTV 16200000/91, roughly
178021.98 dollars. -/
theorem claim_C2_counterexample :
    retentionDays ⟨2024, 1, 1⟩ ⟨2024, 4, 1⟩ = 91 ∧
    ¬ retentionDays ⟨2024, 1, 1⟩ ⟨2024, 4, 1⟩ = 90 ∧
    ltvPipeline 9000 ⟨2024, 1, 1⟩ ⟨2024, 4, 1⟩ ⟨2024, 4, 1⟩ = 16200000 / 91 ∧
    ¬ ltvPipeline 9000 ⟨2024, 1, 1⟩ ⟨2024, 4, 1⟩ ⟨2024, 4, 1⟩ = 180000 := by
  have h1 : retentionDays ⟨2024, 1, 1⟩ ⟨2024, 4, 1⟩ = 91 := by decide
  have h2 : Date.toDays ⟨2024, 4, 1⟩ - Date.toDays ⟨2024, 4, 1⟩ = 0 := by decide
  have h3 : ltvPipeline 9000 ⟨2024, 1, 1⟩ ⟨2024, 4, 1⟩ ⟨2024, 4, 1⟩ = 16200000 / 91 := by
    unfold ltvPipeline clientLTV monthlyFees churnProbability
    rw [h1, h2]
    norm_num [max_def]
  refine ⟨h1, by rw [h1]; norm_num, h3, by rw [h3]; norm_num⟩

/-- C2 (amended): the per-client LTV pipeline is exactly the deterministic
function described — monthly revenue is total revenue over
`max(retention days / 30, 1)`, churn is 0.8 when the gap to the most recent
service date exceeds 90 days and 0.2 otherwise, and LTV is monthly revenue
over churn times 12 — and on the worked example (first service 2024-01-01,
last service 2024-04-01, revenue 9000, most recent date 2024-04-01) it yields
retention 91 days, churn 0.2, monthly revenue 270000/91, LTV 16200000/91. -/
theorem claim_C2 :
    (∀ (tf : ℚ) (first last recent : Date),
        ltvPipeline tf first last recent =
          ltvSpecFormula tf (retentionDays first last)
            (recent.toDays - last.toDays)) ∧
    retentionDays ⟨2024, 1, 1⟩ ⟨2024, 4, 1⟩ = 91 ∧
    churnProbability ⟨2024, 4, 1⟩ ⟨2024, 4, 1⟩ = 2 / 10 ∧
    monthlyFees 9000 (retentionDays ⟨2024, 1, 1⟩ ⟨2024, 4, 1⟩) = 270000 / 91 ∧
    ltvPipeline 9000 ⟨2024, 1, 1⟩ ⟨2024, 4, 1⟩ ⟨2024, 4, 1⟩ = 16200000 / 91 := by
  have h1 : retentionDays ⟨2024, 1, 1⟩ ⟨2024, 4, 1⟩ = 91 := by decide
  have h2 : Date.toDays ⟨2024, 4, 1⟩ - Date.toDays ⟨2024, 4, 1⟩ = 0 := by decide
  refine ⟨fun tf f l r => rfl, h1, ?_, ?_, ?_⟩
  · unfold churnProbability
    rw [h2]
    norm_num
  · unfold monthlyFees
    rw [h1]
    norm_num [max_def]
  · unfold ltvPipeline clientLTV monthlyFees churnProbability
    rw [h1, h2]
    norm_num [max_def]

/-- C3: applying the eight dimension filters in any order produces the same
row set as the source-order pipeline `filtered_df` (boolean masks intersect),
and an empty selection on any single dimension leaves the row set unchanged
rather than filtering to the empty set. -/
theorem claim_C3 :
    (∀ (s : Selection) (rows : List Row) (ps : List (Row → Bool)),
        ps.Perm (selPreds s) → applyPreds ps rows = filtered_df s rows) ∧
    (∀ (get : Row → Option String) (rows : List Row), isinFilter [] get rows = rows) ∧
    (∀ rows : List Row, feeTypeFilter [] rows = rows) ∧
    (∀ rows : List Row, dateFilter [] rows = rows) := by
  refine ⟨?_, ?_, ?_, ?_⟩
  · intro s rows ps h
    rw [applyPreds_eq, filtered_df_eq, applyPreds_eq]
    exact List.filter_congr (fun r _ => all_of_perm h (fun p => p r))
  · intro get rows; simp [isinFilter]
  · intro rows; simp [feeTypeFilter]
  · intro rows; rfl

/-- C3 witness: the eight predicates applied in reverse order on a concrete
frame agree with the source-order pipeline. -/
theorem claim_C3_witness :
    applyPreds ((selPreds exC3Sel).reverse) exC3Rows =
      filtered_df exC3Sel exC3Rows :=
  claim_C3.1 exC3Sel exC3Rows ((selPreds exC3Sel).reverse)
    (List.reverse_perm (selPreds exC3Sel))

/-- C4 counterexample: the claim says no metric handed to the presentation
layer is NaN or Infinity and that a zero-hours group reports a null average
rate.  On a practice group whose total hours are 0 with amount 100 the
unguarded division of line 1104 yields Infinity, and the overview average
rate of line 385 is NaN on an empty filtered frame. -/
theorem claim_C4_counterexample :
    practice_avg_rate [exC4Row] "LIT" = PFloat.inf ∧
    overview_avg_rate [] = PFloat.nan := by
  constructor
  · norm_num [practice_avg_rate, practiceAmount, practiceHours, pdiv, exC4Row,
      baseRow, List.filter_cons]
  · rfl

/-- C4 (amended): the average-rate metrics are unguarded: the per-practice
average rate is amount over hours via float division, so a zero-hours group
yields Infinity (positive amount), negative Infinity (negative amount) or NaN
(zero amount) instead of a null sentinel, while a group with nonzero hours
gets the finite quotient; the overview average rate is NaN on an empty frame. -/
theorem claim_C4_amended :
    (∀ (rows : List Row) (g : String), practiceHours rows g = 0 →
        0 < practiceAmount rows g → practice_avg_rate rows g = PFloat.inf) ∧
    (∀ (rows : List Row) (g : String), practiceHours rows g = 0 →
        practiceAmount rows g < 0 → practice_avg_rate rows g = PFloat.negInf) ∧
    (∀ (rows : List Row) (g : String), practiceHours rows g = 0 →
        practiceAmount rows g = 0 → practice_avg_rate rows g = PFloat.nan) ∧
    (∀ (rows : List Row) (g : String), practiceHours rows g ≠ 0 →
        practice_avg_rate rows g =
          PFloat.val (practiceAmount rows g / practiceHours rows g)) ∧
    overview_avg_rate [] = PFloat.nan := by
  refine ⟨?_, ?_, ?_, ?_, rfl⟩
  · intro rows g h0 hpos
    simp [practice_avg_rate, pdiv, h0, hpos]
  · intro rows g h0 hneg
    have h1 : ¬ (0 : ℚ) < practiceAmount rows g := not_lt.mpr (le_of_lt hneg)
    simp [practice_avg_rate, pdiv, h0, h1, hneg]
  · intro rows g h0 ha
    simp [practice_avg_rate, pdiv, h0, ha]
  · intro rows g h0
    simp [practice_avg_rate, pdiv, h0]

/-- C4 witness: the zero-hours positive-amount group concretely evaluates to
Infinity. -/
theorem claim_C4_witness :
    practice_avg_rate [exC4Row] "LIT" = PFloat.inf :=
  claim_C4_amended.1 [exC4Row] "LIT"
    (by norm_num [practiceHours, exC4Row, baseRow, List.filter_cons])
    (by norm_num [practiceAmount, exC4Row, baseRow, List.filter_cons])

/-- C5 counterexample: the claim says a failed auxiliary source degrades to a
placeholder while the load still returns the primary table.  With the primary
frame fine but the utilization export failing, `load_data` returns the
all-None tuple — the single try/except of lines 95-183 makes ANY source
failure abort the whole load. -/
theorem claim_C5_counterexample :
    exC5Sources.sixMonths.isSome = true ∧ load_data exC5Sources = none :=
  ⟨rfl, rfl⟩

/-- C5 (amended): `load_data` succeeds exactly when all five sources read and
parse, in which case it returns the processed primary frame with the four raw
auxiliary tables; a failure of ANY source — primary or auxiliary — aborts the
whole load and every table of the session. -/
theorem claim_C5 :
    (∀ s : LoadSources, (load_data s).isSome ↔
        s.sixMonths.isSome ∧ s.attorneys.isSome ∧ s.attorneyClients.isSome ∧
          s.utilization.isSome ∧ s.pivotSource.isSome) ∧
    (∀ (t : LoadTable) (a b c d : AuxTable),
        load_data ⟨some t, some a, some b, some c, some d⟩ =
          some (loadProcess t, a, b, c, d)) := by
  constructor
  · rintro ⟨s1, s2, s3, s4, s5⟩
    cases s1 <;> cases s2 <;> cases s3 <;> cases s4 <;> cases s5 <;> simp [load_data]
  · intro t a b c d
    rfl

/-- C6: `get_fee_band` maps null and zero input to the lowest band
"Under $50K", and any other input is annualized by doubling before being
compared against the fixed threshold ladder; in particular 6000000 annualizes
to 12000000 and lands in the "Over $10M" step. -/
theorem claim_C6 :
    get_fee_band none = "Under $50K" ∧
    get_fee_band (some 0) = "Under $50K" ∧
    get_fee_band (some 6000000) = "Over $10M" ∧
    ∀ v : ℚ, v ≠ 0 → get_fee_band (some v) = feeBandLadder (2 * v) := by
  refine ⟨rfl, by norm_num [get_fee_band], by norm_num [get_fee_band], ?_⟩
  intro v hv
  have h : get_fee_band (some v) =
      if v = 0 then "Under $50K" else feeBandLadder (v * 2) := rfl
  rw [h, if_neg hv, mul_comm]

/-- C6 witness: the ladder reduction at the concrete nonzero input 6000000. -/
theorem claim_C6_witness :
    (6000000 : ℚ) ≠ 0 ∧ get_fee_band (some 6000000) = feeBandLadder (2 * 6000000) :=
  ⟨by norm_num, claim_C6.2.2.2 6000000 (by norm_num)⟩

/-- C7: both classifiers are total and pure: every input — null, zero,
negative, unmatched text — returns a label from the fixed set, unmatched or
missing text maps to "Unknown", and out-of-range numbers map to the lowest
band.  (Purity holds by construction: both are plain functions of their
argument.) -/
theorem claim_C7 :
    (∀ x : Option String, get_company_revenue_band x ∈ companyBandLabels) ∧
    (∀ q : Option ℚ, get_fee_band q ∈ feeBandLabels) ∧
    get_company_revenue_band (some "no matching phrase") = "Unknown" ∧
    get_company_revenue_band none = "Unknown" ∧
    get_fee_band (some (-125000)) = "Under $50K" ∧
    get_fee_band none = "Under $50K" := by
  refine ⟨?_, ?_, by decide, rfl, by norm_num [get_fee_band], rfl⟩
  · intro x
    cases x with
    | none => decide
    | some s =>
      simp only [get_company_revenue_band]
      repeat' split
      all_goals decide
  · intro q
    cases q with
    | none => decide
    | some v =>
      simp only [get_fee_band]
      repeat' split
      all_goals decide

/-- C8: with both bounds chosen, the date filter keeps a row exactly when its
service date lies between the bounds inclusive; with an incomplete selection
(one bound or none) no date filter is applied; and the date predicate reads
only the service date, never the invoice date. -/
theorem claim_C8 :
    (∀ (lo hi : Date) (rows : List Row) (r : Row),
        r ∈ dateFilter [lo, hi] rows ↔
          r ∈ rows ∧ ∃ d : Date, r.serviceDate = some d ∧
            lo.toDays ≤ d.toDays ∧ d.toDays ≤ hi.toDays) ∧
    (∀ (d : Date) (rows : List Row), dateFilter [d] rows = rows) ∧
    (∀ rows : List Row, dateFilter [] rows = rows) ∧
    (∀ (lo hi : Date) (r r' : Row), r.serviceDate = r'.serviceDate →
        datePred lo hi r = datePred lo hi r') := by
  refine ⟨?_, fun d rows => rfl, fun rows => rfl, ?_⟩
  · intro lo hi rows r
    show r ∈ rows.filter (datePred lo hi) ↔ _
    rw [List.mem_filter]
    constructor
    · rintro ⟨hmem, hpred⟩
      refine ⟨hmem, ?_⟩
      unfold datePred at hpred
      cases h : r.serviceDate with
      | none => rw [h] at hpred; exact absurd hpred (by simp)
      | some d =>
        rw [h] at hpred
        simp only [Bool.and_eq_true, decide_eq_true_eq] at hpred
        exact ⟨d, rfl, hpred.1, hpred.2⟩
    · rintro ⟨hmem, d, hd, h1, h2⟩
      refine ⟨hmem, ?_⟩
      unfold datePred
      rw [hd]
      simp [h1, h2]
  · intro lo hi r r' h
    unfold datePred
    rw [h]

/-- C8 witness: two rows sharing a service date but differing in invoice date
are treated identically by the date predicate. -/
theorem claim_C8_witness :
    datePred ⟨2024, 2, 1⟩ ⟨2024, 2, 28⟩ exC8RowA =
      datePred ⟨2024, 2, 1⟩ ⟨2024, 2, 28⟩ exC8RowB :=
  claim_C8.2.2.2 ⟨2024, 2, 1⟩ ⟨2024, 2, 28⟩ exC8RowA exC8RowB rfl

/-- C9 counterexample: the claim says all downstream bands exclude expense
rows.  With client Acme holding one 30000-dollar fee row and one
30000-dollar expense row, the merged fee band is computed from the 60000
pre-filter total (lines 114-115 run before the expense filter of lines
140-144) and comes out "$100K-$250K", whereas the band of the
expense-excluded total 30000 would be "$50K-$100K". -/
theorem claim_C9_counterexample :
    (loadProcess exC9Table).map (fun r => r.feeBand) = [some "$100K-$250K"] ∧
    clientFeeBandOf (dropExpenses exC9Table) "Acme" = "$50K-$100K" ∧
    ("$100K-$250K" : String) ≠ "$50K-$100K" := by
  refine ⟨?_, ?_, by decide⟩
  · simp [loadProcess, dropExpenses, expenseKeep, exC9Table, exC9Keep, exC9Expense,
      baseRow, List.filter_cons, mergeFeeBand, clientFeeBandOf, clientTotalAmount]
    norm_num [get_fee_band]
  · simp [dropExpenses, expenseKeep, exC9Table, exC9Keep, exC9Expense, baseRow,
      List.filter_cons, clientFeeBandOf, clientTotalAmount]
    norm_num [get_fee_band]

/-- C9 (amended): after date parsing the loader removes every row whose
Transaction Type is exactly "Expense" (falling back to Activity Type when
that column is absent) before the band merge, so downstream totals and
aggregates over the merged time-entry table exclude those rows; but the
per-client Fee Band labels are computed from the pre-filter totals and
therefore still include the expense amounts. -/
theorem claim_C9_amended :
    (∀ (t : LoadTable) (r : Row),
        r ∈ loadProcess t ↔
          ∃ r₀ ∈ t.rows, expenseKeep t r₀ = true ∧ r = mergeFeeBand t r₀) ∧
    (∀ (t : LoadTable) (r : Row), t.hasTransactionType = true →
        r ∈ loadProcess t → r.transactionType ≠ some "Expense") ∧
    (∀ (t : LoadTable) (r : Row) (c : String), r ∈ loadProcess t →
        r.clientName = some c →
        r.feeBand = some (get_fee_band (some (clientTotalAmount t.rows c)))) := by
  have hmem : ∀ (t : LoadTable) (r : Row),
      r ∈ loadProcess t ↔
        ∃ r₀ ∈ t.rows, expenseKeep t r₀ = true ∧ r = mergeFeeBand t r₀ := by
    intro t r
    simp only [loadProcess, dropExpenses, List.mem_map, List.mem_filter]
    constructor
    · rintro ⟨r₀, ⟨h₀, hk⟩, rfl⟩
      exact ⟨r₀, h₀, hk, rfl⟩
    · rintro ⟨r₀, h₀, hk, rfl⟩
      exact ⟨r₀, ⟨h₀, hk⟩, rfl⟩
  refine ⟨hmem, ?_, ?_⟩
  · intro t r ht hr
    obtain ⟨r₀, _, hk, rfl⟩ := (hmem t r).mp hr
    unfold expenseKeep at hk
    rw [if_pos ht] at hk
    have hpres : (mergeFeeBand t r₀).transactionType = r₀.transactionType := rfl
    rw [hpres]
    exact bne_iff_ne.mp hk
  · intro t r c hr hc
    obtain ⟨r₀, _, _, rfl⟩ := (hmem t r).mp hr
    have hcn : (mergeFeeBand t r₀).clientName = r₀.clientName := rfl
    rw [hcn] at hc
    show r₀.clientName.map (clientFeeBandOf t.rows) = _
    rw [hc]
    rfl

/-- C9 witness: the surviving Acme row carries the fee band of the pre-filter
client total. -/
theorem claim_C9_witness :
    (mergeFeeBand exC9Table exC9Keep).feeBand =
      some (get_fee_band (some (clientTotalAmount exC9Table.rows "Acme"))) := by
  have hmem : mergeFeeBand exC9Table exC9Keep ∈ loadProcess exC9Table := by
    simp [loadProcess, dropExpenses, expenseKeep, exC9Table, exC9Keep, exC9Expense,
      baseRow, List.filter_cons]
  exact claim_C9_amended.2.2 exC9Table (mergeFeeBand exC9Table exC9Keep) "Acme" hmem rfl

/-- C10: an attorney appears in the utilization-overview table exactly when it
occurs in the filtered frame with summed hours above 1 and a non-null first
target, and in the attorney-analysis metrics table exactly when its summed
hours are above 1 — so every attorney with total hours at most 1 is dropped
before utilization, average-rate and ranking columns are built. -/
theorem claim_C10 :
    (∀ (rows : List Row) (a : String),
        (∃ u ∈ attorney_util rows, u.attorney = a) ↔
          a ∈ attorneyKeys rows ∧ 1 < attorneyHours rows a ∧
            (attorneyFirstTarget rows a).isSome) ∧
    (∀ (rows : List Row) (a : String),
        (∃ m ∈ attorney_metrics rows, m.attorney = a) ↔
          a ∈ attorneyKeys rows ∧ 1 < attorneyHours rows a) := by
  constructor
  · intro rows a
    constructor
    · rintro ⟨u, hu, hattr⟩
      obtain ⟨w, hw, rfl⟩ := List.mem_map.mp hu
      obtain ⟨hwagg, hcond⟩ := List.mem_filter.mp hw
      obtain ⟨b, hb, rfl⟩ := List.mem_map.mp hwagg
      rw [Bool.and_eq_true, decide_eq_true_eq] at hcond
      have hba : b = a := hattr
      subst hba
      exact ⟨hb, hcond.1, hcond.2⟩
    · rintro ⟨hb, hh, ht⟩
      refine ⟨⟨a, attorneyHours rows a, attorneyFirstTarget rows a,
        utilizationRate (attorneyHours rows a) (attorneyFirstTarget rows a)⟩, ?_, rfl⟩
      apply List.mem_map.mpr
      refine ⟨⟨a, attorneyHours rows a, attorneyFirstTarget rows a⟩, ?_, rfl⟩
      apply List.mem_filter.mpr
      refine ⟨List.mem_map.mpr ⟨a, hb, rfl⟩, ?_⟩
      rw [Bool.and_eq_true, decide_eq_true_eq]
      exact ⟨hh, ht⟩
  · intro rows a
    constructor
    · rintro ⟨u, hu, hattr⟩
      obtain ⟨w, hw, rfl⟩ := List.mem_map.mp hu
      obtain ⟨hwagg, hcond⟩ := List.mem_filter.mp hw
      obtain ⟨b, hb, rfl⟩ := List.mem_map.mp hwagg
      rw [decide_eq_true_eq] at hcond
      have hba : b = a := hattr
      subst hba
      exact ⟨hb, hcond⟩
    · rintro ⟨hb, hh⟩
      refine ⟨⟨a, attorneyHours rows a, attorneyAmount rows a, attorneyClientCount rows a,
        attorneyMatterCount rows a, attorneyFirstTarget rows a, attorneyFirstPG rows a,
        utilizationRate (attorneyHours rows a) (attorneyFirstTarget rows a),
        attorneyAmount rows a / attorneyHours rows a⟩, ?_, rfl⟩
      apply List.mem_map.mpr
      refine ⟨⟨a, attorneyHours rows a, attorneyAmount rows a, attorneyClientCount rows a,
        attorneyMatterCount rows a, attorneyFirstTarget rows a, attorneyFirstPG rows a⟩,
        ?_, rfl⟩
      apply List.mem_filter.mpr
      refine ⟨List.mem_map.mpr ⟨a, hb, rfl⟩, ?_⟩
      rw [decide_eq_true_eq]
      exact hh

end OGCDash
